import Mathlib

/-!
Verification of the window-side command/undo/redo coordination of the
pdfslicer repository. The embedding follows src/src/ui/window.cpp
(Slicer::AppWindow). The collaborators Document, CommandSlot and
BackgroundThread are declared but not defined in the repository; their
behaviour is modelled from the specification where a claim needs it, and
each such definition is marked in its doc comment.
-/

namespace Slicer

/-- Cursor shown by the window: normal, or the busy "progress" cursor
set in the commandQueuedSignal handler (window.cpp line 126). -/
inductive Cursor where
  | normal : Cursor
  | progress : Cursor
  deriving DecidableEq

/-- Modelled from the spec: the Document owns an undo stack and a redo
stack of applied or reverted operations (spec section 3); the Document
class itself is not part of the provided sources. Stack entries are
opaque command identifiers. -/
structure Document where
  path : String
  undoStack : List Nat
  redoStack : List Nat
  deriving DecidableEq

/-- Modelled from the spec: a freshly constructed Document has empty
history. -/
def Document.new (path : String) : Document :=
  { path := path, undoStack := [], redoStack := [] }

/-- Modelled from the spec: canUndo is true iff the undo stack is
non-empty (spec section 3). -/
def Document.canUndo (d : Document) : Bool :=
  !d.undoStack.isEmpty

/-- Modelled from the spec: canRedo is true iff the redo stack is
non-empty (spec section 3). -/
def Document.canRedo (d : Document) : Bool :=
  !d.redoStack.isEmpty

/-- Modelled from the spec: undoCommand pops the most recent entry from
the undo stack and pushes it onto the redo stack; a safe no-op on empty
history (spec section 4.2). -/
def Document.undoCommand (d : Document) : Document :=
  match d.undoStack with
  | [] => d
  | c :: rest => { d with undoStack := rest, redoStack := c :: d.redoStack }

/-- Modelled from the spec: redoCommand pops the most recent entry from
the redo stack and pushes it back onto the undo stack; a safe no-op on
empty history (spec section 4.2). -/
def Document.redoCommand (d : Document) : Document :=
  match d.redoStack with
  | [] => d
  | c :: rest => { d with redoStack := rest, undoStack := c :: d.undoStack }

/-- Modelled from the spec: executing a new forward command pushes it
onto the undo stack and clears the redo stack (spec section 4.2). -/
def Document.applyForward (d : Document) (c : Nat) : Document :=
  { d with undoStack := c :: d.undoStack, redoStack := [] }

/-- Modelled from the spec: the Document constructor may throw when the
selected file cannot be opened; the flag stands for that external
outcome (window.cpp line 45 constructs the Document inside a try block). -/
def Document.construct (path : String) (ctorOk : Bool) : Except String Document :=
  if ctorOk then Except.ok (Document.new path) else Except.error "could not open"

/-- A zero-argument closure enqueued into the CommandSlot. The window
enqueues closures calling undoCommand (window.cpp lines 204-206) and
redoCommand (lines 211-213); the editor enqueues forward document
mutations, modelled from the spec. -/
inductive Cmd where
  | undo : Cmd
  | redo : Cmd
  | forward : Nat → Cmd
  deriving DecidableEq

/-- Running an enqueued closure against the Document. -/
def Cmd.run : Cmd → Document → Document
  | Cmd.undo, d => d.undoCommand
  | Cmd.redo, d => d.redoCommand
  | Cmd.forward i, d => d.applyForward i

/-- Result of a file-chooser dialog (GTK_RESPONSE_ACCEPT or anything
else). -/
inductive DialogResult where
  | accept : DialogResult
  | cancel : DialogResult
  deriving DecidableEq

/-- The observable state of the AppWindow together with the one-slot
CommandSlot it is wired to. Fields undoEnabled, redoEnabled and
saveEnabled model the enabled flags of m_undoAction, m_redoAction and
m_saveAction; cursor models the window cursor; document models
m_document; docConnected records that onCommandExecuted has been
connected to the commandExecuted signal of the current document
(window.cpp line 59); pending models the in-flight command held by the
CommandSlot; savedRevealed models m_revealerDone; subtitle models the
header-bar subtitle; registeredActions lists the action names added by
addActions. -/
structure WindowState where
  undoEnabled : Bool
  redoEnabled : Bool
  saveEnabled : Bool
  cursor : Cursor
  document : Option Document
  docConnected : Bool
  pending : Option Cmd
  savedRevealed : Bool
  subtitle : Option String
  registeredActions : List String
  deriving DecidableEq

/-- Window state before addActions runs: GTK actions default to enabled
when added, nothing registered yet, no document. -/
def blankWindow : WindowState :=
  { undoEnabled := true
  , redoEnabled := true
  , saveEnabled := true
  , cursor := Cursor.normal
  , document := none
  , docConnected := false
  , pending := none
  , savedRevealed := false
  , subtitle := none
  , registeredActions := [] }

/-- AppWindow::addActions (window.cpp lines 62-72): registers the four
actions and disables save, undo and redo. -/
def AppWindow.addActions (s : WindowState) : WindowState :=
  { s with
    registeredActions := ["open-document", "save-document", "undo", "redo"]
  , saveEnabled := false
  , undoEnabled := false
  , redoEnabled := false }

/-- The window state right after the AppWindow constructor
(window.cpp lines 27-41) has run. -/
def initialWindow : WindowState :=
  AppWindow.addActions blankWindow

/-- The lambda connected to m_commandSlot.commandQueuedSignal in
AppWindow::setupSignalHandlers (window.cpp lines 122-128): disables the
undo and redo actions and sets the progress cursor. -/
def commandQueuedHandler (s : WindowState) : WindowState :=
  { s with
    undoEnabled := false
  , redoEnabled := false
  , cursor := Cursor.progress }

/-- Modelled from the spec: CommandSlot::queueCommand holds at most one
pending command; it silently ignores an enqueue while a command is in
flight (spec sections 4.1 and 9, recommended policy) and synchronously
raises the commandQueued notification on accepting a command, which runs
the connected window handler before execution starts. The CommandSlot
class is not part of the provided sources. -/
def queueCommand (s : WindowState) (c : Cmd) : WindowState :=
  match s.pending with
  | some _ => s
  | none => commandQueuedHandler { s with pending := some c }

/-- AppWindow::onUndoAction (window.cpp lines 202-207): enqueues a
closure calling Document::undoCommand. -/
def AppWindow.onUndoAction (s : WindowState) : WindowState :=
  queueCommand s Cmd.undo

/-- AppWindow::onRedoAction (window.cpp lines 209-214): enqueues a
closure calling Document::redoCommand. -/
def AppWindow.onRedoAction (s : WindowState) : WindowState :=
  queueCommand s Cmd.redo

/-- AppWindow::onCommandExecuted (window.cpp lines 216-229): enables the
undo action iff the document canUndo, the redo action iff it canRedo,
and restores the default cursor. The handler is only ever connected
after a document exists (window.cpp line 59), so the none branch is a
no-op placeholder that is never reached through the slot. -/
def AppWindow.onCommandExecuted (s : WindowState) : WindowState :=
  match s.document with
  | none => s
  | some d =>
    let s1 := if d.canUndo then { s with undoEnabled := true }
              else { s with undoEnabled := false }
    let s2 := if d.canRedo then { s1 with redoEnabled := true }
              else { s1 with redoEnabled := false }
    { s2 with cursor := Cursor.normal }

/-- Modelled from the spec: a command attempt either produces the
mutated document or fails (CommandExecutionFailure, spec section 7). -/
def runCommandAttempt (c : Cmd) (crashes : Bool) (d : Document) : Except String Document :=
  if crashes then Except.error "CommandExecutionFailure" else Except.ok (Cmd.run c d)

/-- Modelled from the spec: the BackgroundThread executes the closure;
a failure is caught at the execution boundary, leaves the stacks in
their pre-failure state, and the completion notification fires exactly
once either way (spec sections 4.1 and 7). The second component counts
the completion notifications fired. -/
def backgroundExecute (c : Cmd) (crashes : Bool) (d : Document) : Document × Nat :=
  match runCommandAttempt c crashes d with
  | Except.ok d2 => (d2, 1)
  | Except.error _ => (d, 1)

/-- Modelled from the spec: completion of the in-flight command. The
document is updated by the background execution and the commandExecuted
notification runs the connected window handler; with no in-flight
command nothing happens. -/
def completeCommand (crashes : Bool) (s : WindowState) : WindowState :=
  match s.pending with
  | none => s
  | some c =>
    match s.document with
    | none => { s with pending := none }
    | some d =>
      AppWindow.onCommandExecuted
        { s with
          pending := none
        , document := some (backgroundExecute c crashes d).1 }

/-- Basename of a path, as file->get_basename on line 55. -/
def basename (p : String) : String :=
  (p.splitOn "/").getLastD p

/-- AppWindow::openDocument (window.cpp lines 43-60): constructs a new
Document from the file path (which may throw, propagated to the caller),
replaces the previous document, sets the header-bar subtitle, enables
the save action and connects onCommandExecuted to the commandExecuted
signal of the new document. -/
def AppWindow.openDocument (path : String) (ctorOk : Bool) (s : WindowState) :
    Except String WindowState :=
  match Document.construct path ctorOk with
  | Except.error e => Except.error e
  | Except.ok document =>
    Except.ok
      { s with
        document := some document
      , subtitle := some (basename path)
      , saveEnabled := true
      , docConnected := true }

/-- Outcome of AppWindow::onOpenAction: the resulting window state and
whether the error dialog was shown. -/
structure OpenOutcome where
  state : WindowState
  errorDialogShown : Bool
  deriving DecidableEq

/-- AppWindow::onOpenAction (window.cpp lines 177-200): when the dialog
is accepted, tries to open the document and on a throw shows an error
dialog; on every path it then disables the undo and redo actions. -/
def AppWindow.onOpenAction (result : DialogResult) (path : String) (ctorOk : Bool)
    (s : WindowState) : OpenOutcome :=
  let tryRes : WindowState × Bool :=
    match result with
    | DialogResult.cancel => (s, false)
    | DialogResult.accept =>
      match AppWindow.openDocument path ctorOk s with
      | Except.ok s2 => (s2, false)
      | Except.error _ => (s, true)
  { state := { tryRes.1 with undoEnabled := false, redoEnabled := false }
  , errorDialogShown := tryRes.2 }

/-- Modelled from the spec: Document::saveDocument may throw; the flag
stands for that external outcome (window.cpp line 162 calls it inside a
try block). -/
def saveDocument (saveOk : Bool) : Except String Unit :=
  if saveOk then Except.ok () else Except.error "could not save"

/-- The lambda connected to m_signalSaved in setupSignalHandlers
(window.cpp lines 108-120): reveals the saved notification. -/
def savedSignalHandler (s : WindowState) : WindowState :=
  { s with savedRevealed := true }

/-- Outcome of AppWindow::onSaveAction: the resulting window state,
whether m_signalSaved was emitted, and whether the error dialog was
shown. -/
structure SaveOutcome where
  state : WindowState
  savedEmitted : Bool
  errorDialogShown : Bool
  deriving DecidableEq

/-- AppWindow::onSaveAction (window.cpp lines 154-175): when the dialog
is accepted, saves the document and emits m_signalSaved; a throw from
saveDocument is caught and an error dialog is shown instead. The Except
return type embeds possible exception propagation to the caller; every
branch returns ok because the catch clause swallows the exception. -/
def AppWindow.onSaveAction (result : DialogResult) (saveOk : Bool) (s : WindowState) :
    Except String SaveOutcome :=
  match result with
  | DialogResult.cancel => Except.ok { state := s, savedEmitted := false, errorDialogShown := false }
  | DialogResult.accept =>
    match saveDocument saveOk with
    | Except.ok _ =>
      Except.ok { state := savedSignalHandler s, savedEmitted := true, errorDialogShown := false }
    | Except.error _ =>
      Except.ok { state := s, savedEmitted := false, errorDialogShown := true }

/-- External events driving the window: user actions, the editor
enqueueing a forward document mutation, and completion of the in-flight
command by the background thread (with its success flag). -/
inductive Event where
  | undoAction : Event
  | redoAction : Event
  | forwardAction : Nat → Event
  | openAction : DialogResult → String → Bool → Event
  | saveAction : DialogResult → Bool → Event
  | complete : Bool → Event
  deriving DecidableEq

/-- One step of the whole system: dispatch an event to the handler
wired to it. -/
def step (e : Event) (s : WindowState) : WindowState :=
  match e with
  | Event.undoAction => AppWindow.onUndoAction s
  | Event.redoAction => AppWindow.onRedoAction s
  | Event.forwardAction i => queueCommand s (Cmd.forward i)
  | Event.openAction result path ctorOk => (AppWindow.onOpenAction result path ctorOk s).state
  | Event.saveAction result saveOk =>
    match AppWindow.onSaveAction result saveOk s with
    | Except.ok o => o.state
    | Except.error _ => s
  | Event.complete crashes => completeCommand crashes s

/-- Run a sequence of events from a state. -/
def run (es : List Event) (s : WindowState) : WindowState :=
  match es with
  | [] => s
  | e :: rest => run rest (step e s)

/-- Busy invariant: while a command is in flight the undo and redo
actions are disabled and the progress cursor is shown. -/
def BusyDisabled (s : WindowState) : Prop :=
  s.pending.isSome = true →
    s.undoEnabled = false ∧ s.redoEnabled = false ∧ s.cursor = Cursor.progress

/-- Each step preserves the busy invariant. -/
theorem step_preserves_busyDisabled (e : Event) (s : WindowState)
    (h : BusyDisabled s) : BusyDisabled (step e s) := by
  cases e with
  | undoAction =>
    unfold BusyDisabled step AppWindow.onUndoAction queueCommand commandQueuedHandler
    cases hp : s.pending with
    | some c => simpa [hp, BusyDisabled] using h
    | none => intro _; exact ⟨rfl, rfl, rfl⟩
  | redoAction =>
    unfold BusyDisabled step AppWindow.onRedoAction queueCommand commandQueuedHandler
    cases hp : s.pending with
    | some c => simpa [hp, BusyDisabled] using h
    | none => intro _; exact ⟨rfl, rfl, rfl⟩
  | forwardAction i =>
    unfold BusyDisabled step queueCommand commandQueuedHandler
    cases hp : s.pending with
    | some c => simpa [hp, BusyDisabled] using h
    | none => intro _; exact ⟨rfl, rfl, rfl⟩
  | openAction result path ctorOk =>
    unfold BusyDisabled step AppWindow.onOpenAction AppWindow.openDocument Document.construct
    cases result with
    | cancel =>
      intro hb
      exact ⟨rfl, rfl, (h hb).2.2⟩
    | accept =>
      cases ctorOk with
      | true => intro hb; exact ⟨rfl, rfl, (h hb).2.2⟩
      | false => intro hb; exact ⟨rfl, rfl, (h hb).2.2⟩
  | saveAction result saveOk =>
    unfold BusyDisabled step AppWindow.onSaveAction saveDocument savedSignalHandler
    cases result with
    | cancel => simpa [BusyDisabled] using h
    | accept =>
      cases saveOk with
      | true => simpa [BusyDisabled] using h
      | false => simpa [BusyDisabled] using h
  | complete crashes =>
    unfold BusyDisabled step completeCommand
    cases hp : s.pending with
    | none => simp [hp]
    | some c =>
      cases hd : s.document with
      | none => simp
      | some d =>
        unfold AppWindow.onCommandExecuted
        simp only
        split <;> split <;> simp

/-- Running any event sequence preserves the busy invariant. -/
theorem run_preserves_busyDisabled (es : List Event) (s : WindowState)
    (h : BusyDisabled s) : BusyDisabled (run es s) := by
  induction es generalizing s with
  | nil => exact h
  | cons e rest ih => exact ih (step e s) (step_preserves_busyDisabled e s h)

/-- Soundness invariant: whenever the undo (redo) action is enabled,
there is a document and it canUndo (canRedo). -/
def EnabledSound (s : WindowState) : Prop :=
  (s.undoEnabled = true → ∃ d, s.document = some d ∧ d.canUndo = true) ∧
  (s.redoEnabled = true → ∃ d, s.document = some d ∧ d.canRedo = true)

/-- Each step preserves the soundness invariant. -/
theorem step_preserves_enabledSound (e : Event) (s : WindowState)
    (h : EnabledSound s) : EnabledSound (step e s) := by
  cases e with
  | undoAction =>
    unfold EnabledSound step AppWindow.onUndoAction queueCommand commandQueuedHandler
    cases hp : s.pending with
    | some c => exact h
    | none => simp
  | redoAction =>
    unfold EnabledSound step AppWindow.onRedoAction queueCommand commandQueuedHandler
    cases hp : s.pending with
    | some c => exact h
    | none => simp
  | forwardAction i =>
    unfold EnabledSound step queueCommand commandQueuedHandler
    cases hp : s.pending with
    | some c => exact h
    | none => simp
  | openAction result path ctorOk =>
    unfold EnabledSound step AppWindow.onOpenAction AppWindow.openDocument Document.construct
    cases result with
    | cancel => simp
    | accept => cases ctorOk <;> simp
  | saveAction result saveOk =>
    unfold EnabledSound step AppWindow.onSaveAction saveDocument savedSignalHandler
    cases result with
    | cancel => exact h
    | accept => cases saveOk <;> simp <;> exact h
  | complete crashes =>
    unfold EnabledSound step completeCommand
    cases hp : s.pending with
    | none => exact h
    | some c =>
      cases hd : s.document with
      | none =>
        refine ⟨fun hu => ?_, fun hr => ?_⟩
        · obtain ⟨a, ha, _⟩ := h.1 hu
          simp [hd] at ha
        · obtain ⟨a, ha, _⟩ := h.2 hr
          simp [hd] at ha
      | some d =>
        unfold AppWindow.onCommandExecuted
        simp only
        split <;> split <;> simp_all

/-- Running any event sequence preserves the soundness invariant. -/
theorem run_preserves_enabledSound (es : List Event) (s : WindowState)
    (h : EnabledSound s) : EnabledSound (run es s) := by
  induction es generalizing s with
  | nil => exact h
  | cons e rest ih => exact ih (step e s) (step_preserves_enabledSound e s h)

/-- Save invariant: the save action is enabled only when a document has
been opened. -/
def SaveSound (s : WindowState) : Prop :=
  s.saveEnabled = true → s.document.isSome = true

/-- Each step preserves the save invariant. -/
theorem step_preserves_saveSound (e : Event) (s : WindowState)
    (h : SaveSound s) : SaveSound (step e s) := by
  cases e with
  | undoAction =>
    unfold SaveSound step AppWindow.onUndoAction queueCommand commandQueuedHandler
    cases hp : s.pending with
    | some c => exact h
    | none => exact h
  | redoAction =>
    unfold SaveSound step AppWindow.onRedoAction queueCommand commandQueuedHandler
    cases hp : s.pending with
    | some c => exact h
    | none => exact h
  | forwardAction i =>
    unfold SaveSound step queueCommand commandQueuedHandler
    cases hp : s.pending with
    | some c => exact h
    | none => exact h
  | openAction result path ctorOk =>
    unfold SaveSound step AppWindow.onOpenAction AppWindow.openDocument Document.construct
    cases result with
    | cancel => exact h
    | accept =>
      cases ctorOk with
      | true => simp
      | false => exact h
  | saveAction result saveOk =>
    unfold SaveSound step AppWindow.onSaveAction saveDocument savedSignalHandler
    cases result with
    | cancel => exact h
    | accept =>
      cases saveOk with
      | true => exact h
      | false => exact h
  | complete crashes =>
    unfold SaveSound step completeCommand
    cases hp : s.pending with
    | none => exact h
    | some c =>
      cases hd : s.document with
      | none => intro hs; exact absurd (h hs) (by simp [hd])
      | some d =>
        unfold AppWindow.onCommandExecuted
        simp only
        split <;> split
        all_goals simp

/-- Running any event sequence preserves the save invariant. -/
theorem run_preserves_saveSound (es : List Event) (s : WindowState)
    (h : SaveSound s) : SaveSound (run es s) := by
  induction es generalizing s with
  | nil => exact h
  | cons e rest ih => exact ih (step e s) (step_preserves_saveSound e s h)

/-- The freshly constructed window satisfies the busy invariant. -/
theorem initial_busyDisabled : BusyDisabled initialWindow := by
  intro hb
  simp [initialWindow, AppWindow.addActions, blankWindow] at hb

/-- The freshly constructed window satisfies the soundness invariant. -/
theorem initial_enabledSound : EnabledSound initialWindow := by
  constructor <;> intro hb <;>
    simp [initialWindow, AppWindow.addActions, blankWindow] at hb

/-- The freshly constructed window satisfies the save invariant. -/
theorem initial_saveSound : SaveSound initialWindow := by
  intro hb
  simp [initialWindow, AppWindow.addActions, blankWindow] at hb

/-- C1: when the commandQueued notification fires, the connected handler
disables both the undo and the redo action and switches the window
cursor to the busy progress cursor; enqueueing itself never touches the
Document, so all of this happens before command execution starts. -/
theorem commandQueued_disables_actions_and_sets_busy_cursor
    (s : WindowState) (c : Cmd) :
    (commandQueuedHandler s).undoEnabled = false ∧
    (commandQueuedHandler s).redoEnabled = false ∧
    (commandQueuedHandler s).cursor = Cursor.progress ∧
    (queueCommand s c).document = s.document := by
  refine ⟨rfl, rfl, rfl, ?_⟩
  cases hp : s.pending with
  | some c2 => simp [queueCommand, hp]
  | none => simp [queueCommand, commandQueuedHandler, hp]

/-- C2: when the commandExecuted notification fires, onCommandExecuted
sets the undo action enabled iff the document canUndo, the redo action
enabled iff it canRedo, and restores the normal cursor. -/
theorem onCommandExecuted_rederives_enablement_and_restores_cursor
    (s : WindowState) (d : Document) (h : s.document = some d) :
    (AppWindow.onCommandExecuted s).undoEnabled = d.canUndo ∧
    (AppWindow.onCommandExecuted s).redoEnabled = d.canRedo ∧
    (AppWindow.onCommandExecuted s).cursor = Cursor.normal := by
  unfold AppWindow.onCommandExecuted
  rw [h]
  simp only
  cases hu : d.canUndo <;> cases hr : d.canRedo <;> simp [hu, hr]

/-- Witness for C2 at a concrete state holding a document with one undo
entry. -/
theorem onCommandExecuted_rederives_witness :
    ({ initialWindow with
        document := some { path := "a", undoStack := [0], redoStack := [] } } :
      WindowState).document
        = some { path := "a", undoStack := [0], redoStack := [] } ∧
    ((AppWindow.onCommandExecuted
        { initialWindow with
          document := some { path := "a", undoStack := [0], redoStack := [] } }).undoEnabled
        = Document.canUndo { path := "a", undoStack := [0], redoStack := [] } ∧
     (AppWindow.onCommandExecuted
        { initialWindow with
          document := some { path := "a", undoStack := [0], redoStack := [] } }).redoEnabled
        = Document.canRedo { path := "a", undoStack := [0], redoStack := [] } ∧
     (AppWindow.onCommandExecuted
        { initialWindow with
          document := some { path := "a", undoStack := [0], redoStack := [] } }).cursor
        = Cursor.normal) :=
  ⟨rfl,
   onCommandExecuted_rederives_enablement_and_restores_cursor
     { initialWindow with
       document := some { path := "a", undoStack := [0], redoStack := [] } }
     { path := "a", undoStack := [0], redoStack := [] } rfl⟩

/-- C3: in every reachable state of the window, from the moment the
commandQueued notification is handled until the next commandExecuted
notification is handled — exactly the states in which the slot holds an
in-flight command — the undo and redo actions are disabled and the busy
cursor is shown; only the two notification handlers ever change the
cursor. -/
theorem window_never_enables_actions_while_busy
    (es : List Event) (h : (run es initialWindow).pending.isSome = true) :
    (run es initialWindow).undoEnabled = false ∧
    (run es initialWindow).redoEnabled = false ∧
    (run es initialWindow).cursor = Cursor.progress :=
  run_preserves_busyDisabled es initialWindow initial_busyDisabled h

/-- Witness for C3: after opening a file and triggering undo, a command
is in flight and the actions are disabled with the busy cursor shown. -/
theorem window_never_enables_while_busy_witness :
    (run [Event.openAction DialogResult.accept "a" true, Event.undoAction]
        initialWindow).pending.isSome = true ∧
    ((run [Event.openAction DialogResult.accept "a" true, Event.undoAction]
        initialWindow).undoEnabled = false ∧
     (run [Event.openAction DialogResult.accept "a" true, Event.undoAction]
        initialWindow).redoEnabled = false ∧
     (run [Event.openAction DialogResult.accept "a" true, Event.undoAction]
        initialWindow).cursor = Cursor.progress) :=
  ⟨by decide,
   window_never_enables_actions_while_busy
     [Event.openAction DialogResult.accept "a" true, Event.undoAction] (by decide)⟩

/-- C4 counterexample: a reachable Idle state in which the document
canUndo but the undo action is disabled: open a file, run one forward
command to completion, then cancel an open dialog — onOpenAction
disables undo and redo on every path while the document keeps its
history. -/
theorem idle_enablement_mismatch_counterexample :
    ((run [Event.openAction DialogResult.accept "a" true,
           Event.forwardAction 0,
           Event.complete false,
           Event.openAction DialogResult.cancel "b" true] initialWindow).pending
        = none) ∧
    ((run [Event.openAction DialogResult.accept "a" true,
           Event.forwardAction 0,
           Event.complete false,
           Event.openAction DialogResult.cancel "b" true] initialWindow).document.map
        Document.canUndo = some true) ∧
    ((run [Event.openAction DialogResult.accept "a" true,
           Event.forwardAction 0,
           Event.complete false,
           Event.openAction DialogResult.cancel "b" true] initialWindow).undoEnabled
        = false) := by
  decide

/-- C4 amended: in every reachable Idle state, enablement is sound but
not necessarily equal to availability: an enabled undo (redo) action
implies the document canUndo (canRedo); the converse can fail because
onOpenAction forcibly disables both actions even when the dialog is
cancelled. -/
theorem idle_enablement_sound (es : List Event)
    (_hIdle : (run es initialWindow).pending = none) :
    ((run es initialWindow).undoEnabled = true →
       ∃ d, (run es initialWindow).document = some d ∧ d.canUndo = true) ∧
    ((run es initialWindow).redoEnabled = true →
       ∃ d, (run es initialWindow).document = some d ∧ d.canRedo = true) :=
  run_preserves_enabledSound es initialWindow initial_enabledSound

/-- Witness for C4 amended: after a completed forward command the window
is idle, undo is enabled, and the document indeed canUndo. -/
theorem idle_enablement_sound_witness :
    ((run [Event.openAction DialogResult.accept "a" true,
           Event.forwardAction 0,
           Event.complete false] initialWindow).pending = none ∧
     (run [Event.openAction DialogResult.accept "a" true,
           Event.forwardAction 0,
           Event.complete false] initialWindow).undoEnabled = true) ∧
    (∃ d, (run [Event.openAction DialogResult.accept "a" true,
                Event.forwardAction 0,
                Event.complete false] initialWindow).document = some d ∧
          d.canUndo = true) :=
  ⟨⟨by decide, by decide⟩,
   (idle_enablement_sound
      [Event.openAction DialogResult.accept "a" true,
       Event.forwardAction 0,
       Event.complete false] (by decide)).1 (by decide)⟩

/-- C5: the undo (redo) action handler enqueues into the slot a closure
whose execution is exactly Document.undoCommand (Document.redoCommand),
and it leaves the document untouched — the window never mutates the
document synchronously from the action handler. -/
theorem undo_redo_actions_enqueue_closures (s : WindowState) (d : Document) :
    (AppWindow.onUndoAction s).document = s.document ∧
    (AppWindow.onRedoAction s).document = s.document ∧
    Cmd.run Cmd.undo d = d.undoCommand ∧
    Cmd.run Cmd.redo d = d.redoCommand ∧
    (s.pending = none →
      (AppWindow.onUndoAction s).pending = some Cmd.undo ∧
      (AppWindow.onRedoAction s).pending = some Cmd.redo) := by
  refine ⟨?_, ?_, rfl, rfl, fun hp => ?_⟩
  · cases hp : s.pending with
    | some c => simp [AppWindow.onUndoAction, queueCommand, hp]
    | none => simp [AppWindow.onUndoAction, queueCommand, commandQueuedHandler, hp]
  · cases hp : s.pending with
    | some c => simp [AppWindow.onRedoAction, queueCommand, hp]
    | none => simp [AppWindow.onRedoAction, queueCommand, commandQueuedHandler, hp]
  · constructor <;>
      simp [AppWindow.onUndoAction, AppWindow.onRedoAction, queueCommand,
            commandQueuedHandler, hp]

/-- Witness for C5 at the freshly constructed window. -/
theorem undo_redo_actions_enqueue_witness :
    initialWindow.pending = none ∧
    ((AppWindow.onUndoAction initialWindow).pending = some Cmd.undo ∧
     (AppWindow.onRedoAction initialWindow).pending = some Cmd.redo) :=
  ⟨by decide,
   (undo_redo_actions_enqueue_closures initialWindow (Document.new "a")).2.2.2.2
     (by decide)⟩

/-- C6: opening a file constructs a fresh Document from the path,
installs it in place of any previous document, enables save, and
connects onCommandExecuted to the commandExecuted signal of the new
document, so subsequent completion notifications re-derive availability
from the new (empty-history) document. -/
theorem openDocument_replaces_document_and_connects
    (s : WindowState) (path : String) :
    ∃ s2, AppWindow.openDocument path true s = Except.ok s2 ∧
      s2.document = some (Document.new path) ∧
      s2.docConnected = true ∧
      s2.saveEnabled = true ∧
      s2.subtitle = some (basename path) ∧
      (AppWindow.onCommandExecuted s2).undoEnabled = (Document.new path).canUndo ∧
      (AppWindow.onCommandExecuted s2).redoEnabled = (Document.new path).canRedo := by
  refine ⟨{ s with
            document := some (Document.new path)
          , subtitle := some (basename path)
          , saveEnabled := true
          , docConnected := true }, ?_, rfl, rfl, rfl, rfl, ?_, ?_⟩
  · simp [AppWindow.openDocument, Document.construct]
  · simp [AppWindow.onCommandExecuted, Document.new, Document.canUndo, Document.canRedo]
  · simp [AppWindow.onCommandExecuted, Document.new, Document.canUndo, Document.canRedo]

/-- C7: whether the command succeeds or crashes, its execution fires
exactly one completion notification, a crash leaves the document stacks
in their pre-failure state, and handling the completion clears the
in-flight slot and restores the normal cursor — a failing command never
leaves the UI permanently busy. -/
theorem every_completion_fires_exactly_once
    (c : Cmd) (crashes : Bool) (d : Document) (s : WindowState)
    (hp : s.pending = some c) (hd : s.document = some d) :
    (backgroundExecute c crashes d).2 = 1 ∧
    (crashes = true → (backgroundExecute c crashes d).1 = d) ∧
    (step (Event.complete crashes) s).pending = none ∧
    (step (Event.complete crashes) s).cursor = Cursor.normal := by
  refine ⟨?_, ?_, ?_, ?_⟩
  · cases crashes <;> simp [backgroundExecute, runCommandAttempt, Cmd.run]
  · intro hc
    subst hc
    simp [backgroundExecute, runCommandAttempt]
  · simp only [step, completeCommand, hp, hd, AppWindow.onCommandExecuted]
    split <;> split <;> rfl
  · simp only [step, completeCommand, hp, hd, AppWindow.onCommandExecuted]

/-- Witness for C7: completing a crashing undo command from a busy state
clears the slot and restores the cursor. -/
theorem every_completion_fires_once_witness :
    ({ initialWindow with
        pending := some Cmd.undo, document := some (Document.new "a") } :
      WindowState).pending = some Cmd.undo ∧
    ((backgroundExecute Cmd.undo true (Document.new "a")).2 = 1 ∧
     (true = true → (backgroundExecute Cmd.undo true (Document.new "a")).1
        = Document.new "a") ∧
     (step (Event.complete true)
        { initialWindow with
          pending := some Cmd.undo, document := some (Document.new "a") }).pending
        = none ∧
     (step (Event.complete true)
        { initialWindow with
          pending := some Cmd.undo, document := some (Document.new "a") }).cursor
        = Cursor.normal) :=
  ⟨rfl,
   every_completion_fires_exactly_once Cmd.undo true (Document.new "a")
     { initialWindow with
       pending := some Cmd.undo, document := some (Document.new "a") } rfl rfl⟩

/-- C8: onOpenAction disables the undo and redo actions on every path —
dialog cancelled, open succeeded, or open threw (in which case the error
dialog is shown) — regardless of the current document history. -/
theorem onOpenAction_always_disables_undo_redo
    (result : DialogResult) (path : String) (ctorOk : Bool) (s : WindowState) :
    (AppWindow.onOpenAction result path ctorOk s).state.undoEnabled = false ∧
    (AppWindow.onOpenAction result path ctorOk s).state.redoEnabled = false ∧
    (AppWindow.onOpenAction result path ctorOk s).errorDialogShown
        = (decide (result = DialogResult.accept) && !ctorOk) := by
  cases result <;> cases ctorOk <;>
    simp [AppWindow.onOpenAction, AppWindow.openDocument, Document.construct]

/-- C9: onSaveAction emits the saved signal iff the dialog was accepted
and saveDocument did not throw; on a throw the error dialog is shown
instead and the exception is not propagated to the caller (the handler
always returns normally). -/
theorem onSaveAction_emits_saved_iff_accepted_and_ok
    (result : DialogResult) (saveOk : Bool) (s : WindowState) :
    ∃ o, AppWindow.onSaveAction result saveOk s = Except.ok o ∧
      o.savedEmitted = (decide (result = DialogResult.accept) && saveOk) ∧
      o.errorDialogShown = (decide (result = DialogResult.accept) && !saveOk) ∧
      o.state.savedRevealed = (o.savedEmitted || s.savedRevealed) := by
  cases result <;> cases saveOk <;>
    simp [AppWindow.onSaveAction, saveDocument, savedSignalHandler]

/-- C10: at construction the save, undo and redo actions are registered
and all disabled, and in every reachable state the save action is
enabled only if a document has been opened. -/
theorem actions_registered_disabled_save_after_open (es : List Event)
    (h : (run es initialWindow).saveEnabled = true) :
    initialWindow.saveEnabled = false ∧
    initialWindow.undoEnabled = false ∧
    initialWindow.redoEnabled = false ∧
    "save-document" ∈ initialWindow.registeredActions ∧
    "undo" ∈ initialWindow.registeredActions ∧
    "redo" ∈ initialWindow.registeredActions ∧
    (run es initialWindow).document.isSome = true :=
  ⟨rfl, rfl, rfl, by decide, by decide, by decide,
   run_preserves_saveSound es initialWindow initial_saveSound h⟩

/-- Witness for C10: after a successful open the save action is enabled
and a document is present. -/
theorem actions_registered_disabled_witness :
    (run [Event.openAction DialogResult.accept "a" true] initialWindow).saveEnabled
        = true ∧
    (run [Event.openAction DialogResult.accept "a" true] initialWindow).document.isSome
        = true :=
  ⟨by decide,
   (actions_registered_disabled_save_after_open
      [Event.openAction DialogResult.accept "a" true] (by decide)).2.2.2.2.2.2⟩

end Slicer
